import Mathlib

/-!
Verification of the whoop-mcp health analysis server against its
natural-language specification.

Shallow embedding conventions:
- Go `float64` values (scores, HRV, strain, hours, …) are modelled as exact
  rationals `ℚ`; decimal literals such as `1.2` or `0.85` denote the exact
  decimal rational.  No verified claim depends on IEEE rounding.
- Go `int` values are modelled as `ℤ` (or `ℕ` for counters that only grow
  from zero); Go integer division truncates toward zero, which is `Int.div`.
- Timestamps (`time.Time`) are modelled as integers: epoch seconds for the
  date-range logic, and an abstract totally ordered `ℤ` stamp (`createdAt`)
  where only ordering matters.
- `math.Sqrt` is modelled by `ratSqrt`, an integer Newton-iteration
  approximation; it is a rational stand-in for the IEEE square root.  It is
  only used inside `calculateStdDev`, and no verified claim depends on its
  rounding, only on the `length ≤ 1 → 0` guard.
- `sort.Slice` with the `CreatedAt.Before` comparator is a comparison sort
  with unspecified tie order; it is modelled by the comparison sort
  `List.insertionSort` on `createdAt`.
- HTTP traffic is modelled by scripted oracles: a list of responses consumed
  in order by `doRequest`, and a list of token-exchange outcomes consumed by
  `refreshAccessToken`.
- The free-text fields of insights and red flags (descriptions, suggestions,
  recommendations) are presentation data produced by `fmt.Sprintf`; they are
  not modelled.  The discriminating fields (category, type, severity) are.
-/

/-! ### Data model (whoop_models / API record kinds, used fields only) -/

/-- Score payload of a recovery record (fields read by the analyzer). -/
structure RecoveryScore where
  recoveryScore : ℚ
  hrvRmssd : ℚ
  restingHeartRate : ℚ
  deriving DecidableEq, Repr

/-- A recovery record: creation stamp plus score payload. -/
structure WhoopRecovery where
  createdAt : ℤ
  score : RecoveryScore
  deriving DecidableEq, Repr

/-- Sleep stage summary (fields read by the analyzer). -/
structure SleepStageSummary where
  totalInBedTimeMilli : ℤ
  totalAwakeTimeMilli : ℤ
  disturbanceCount : ℤ
  deriving DecidableEq, Repr

/-- Sleep need decomposition (fields read by the analyzer). -/
structure SleepNeeded where
  baselineMilli : ℤ
  needFromSleepDebtMilli : ℤ
  deriving DecidableEq, Repr

/-- Score payload of a sleep record. -/
structure SleepScore where
  stageSummary : SleepStageSummary
  sleepEfficiencyPercentage : ℚ
  sleepNeeded : SleepNeeded
  deriving DecidableEq, Repr

/-- A sleep record. -/
structure WhoopSleep where
  score : SleepScore
  deriving DecidableEq, Repr

/-- A workout record: start stamp in hours (only differences of starts are
used, always divided by 24 to give days) and strain. -/
structure WhoopWorkout where
  start : ℚ
  strain : ℚ
  deriving DecidableEq, Repr

/-- A physiological cycle record (only the strain is read). -/
structure WhoopCycle where
  strain : ℚ
  deriving DecidableEq, Repr

/-! ### Analysis result records -/

/-- Result of `analyzeRecoveryTrend`. -/
structure RecoveryTrend where
  averageScore : ℚ := 0
  trend : String := ""
  weeklyChange : ℚ := 0
  consistencyScore : ℚ := 0
  lastSevenDays : List ℚ := []
  deriving DecidableEq, Repr

/-- Result of `analyzeSleepPatterns`. -/
structure SleepAnalysis where
  averageHours : ℚ := 0
  averageEfficiency : ℚ := 0
  averageDebt : ℚ := 0
  consistencyScore : ℚ := 0
  disturbanceFrequency : ℚ := 0
  optimalBedtime : String := ""
  sleepQualityTrend : String := ""
  deriving DecidableEq, Repr

/-- Result of `analyzeStressIndicators`. -/
structure StressIndicators where
  elevatedHRVDays : ℕ := 0
  highRestingHRDays : ℕ := 0
  poorRecoveryStreak : ℕ := 0
  stressLevel : String := ""
  physiologicalStress : ℚ := 0
  deriving DecidableEq, Repr

/-- Result of `analyzeActivityPatterns`. -/
structure ActivityPatterns where
  weeklyWorkouts : ℤ := 0
  averageStrain : ℚ := 0
  workoutConsistency : ℚ := 0
  overtrainingRisk : String := ""
  activeRecoveryDays : ℕ := 0
  intensityBalance : String := ""
  deriving DecidableEq, Repr

/-- A therapy insight; the free-text fields are not modelled. -/
structure TherapyInsight where
  category : String
  severity : String
  actionable : Bool
  deriving DecidableEq, Repr

/-- A red flag; `rtype` is the Go `Type` field, free text is not modelled. -/
structure RedFlag where
  rtype : String
  severity : String
  detectedAt : ℤ
  deriving DecidableEq, Repr

/-- Date range carried by a health summary (epoch seconds). -/
structure DateRange where
  startSec : ℤ
  endSec : ℤ
  deriving DecidableEq, Repr

/-- The aggregated health summary. -/
structure HealthSummary where
  userID : ℤ
  dateRange : DateRange
  recoveryTrend : RecoveryTrend
  sleepAnalysis : SleepAnalysis
  stressIndicators : StressIndicators
  activityPatterns : ActivityPatterns
  therapyInsights : List TherapyInsight
  redFlags : List RedFlag
  deriving DecidableEq, Repr

/-! ### Statistical helpers (`calculateMean`, `calculateMeanInt`,
`calculateStdDev` from health_analysis.go) -/

/-- `calculateMean`: arithmetic mean, 0 on the empty list. -/
def calculateMean (values : List ℚ) : ℚ :=
  match values with
  | [] => 0
  | _ :: _ => values.sum / (values.length : ℚ)

/-- `calculateMeanInt`: integer mean with Go (truncating) division, 0 on the
empty list. -/
def calculateMeanInt (values : List ℤ) : ℤ :=
  match values with
  | [] => 0
  | _ :: _ => Int.tdiv values.sum (values.length : ℤ)

/-- One Newton step loop for integer square roots, structurally recursive on
fuel so the kernel can evaluate it. -/
def isqrtAux (n : ℕ) : ℕ → ℕ → ℕ
  | 0, guess => guess
  | fuel + 1, guess =>
    let next := (guess + n / guess) / 2
    if next < guess then isqrtAux n fuel next else guess

/-- Integer square root by Newton iteration (fuel `n` always suffices). -/
def isqrt (n : ℕ) : ℕ :=
  match n with
  | 0 => 0
  | m + 1 => isqrtAux (m + 1) (m + 1) (m + 1)

/-- Rational stand-in for `math.Sqrt` (nonnegative arguments): the integer
square root of `num·den`, divided by `den`. -/
def ratSqrt (q : ℚ) : ℚ :=
  if q ≤ 0 then 0 else (isqrt (q.num.toNat * q.den) : ℚ) / (q.den : ℚ)

/-- `calculateStdDev`: sample standard deviation, 0 when fewer than two
values. -/
def calculateStdDev (values : List ℚ) : ℚ :=
  if values.length ≤ 1 then 0
  else
    let mean := calculateMean values
    let sumSquaredDiff := (values.map (fun v => (v - mean) * (v - mean))).sum
    ratSqrt (sumSquaredDiff / ((values.length : ℚ) - 1))

/-! ### Recovery trend (`analyzeRecoveryTrend`) -/

/-- The `sort.Slice` call ordering recoveries by creation time ascending. -/
def sortByCreatedAt (recoveries : List WhoopRecovery) : List WhoopRecovery :=
  recoveries.insertionSort (fun a b => a.createdAt ≤ b.createdAt)

/-- `analyzeRecoveryTrend`: average, consistency, midpoint-split trend (only
when at least 7 scores are present), and the last up-to-7 scores. -/
def analyzeRecoveryTrend (recoveries : List WhoopRecovery) : RecoveryTrend :=
  match recoveries with
  | [] => { trend := "no_data" }
  | _ :: _ =>
    let sorted := sortByCreatedAt recoveries
    let scores := sorted.map (fun r => r.score.recoveryScore)
    -- the loop keeps indices `i ≥ len − 7`, i.e. the last up-to-7 scores
    let lastSevenDays := scores.drop (scores.length - 7)
    let average := calculateMean scores
    let consistency0 := 1 - calculateStdDev scores / 100
    let consistency := if consistency0 < 0 then 0 else consistency0
    if 7 ≤ scores.length then
      let firstHalf := scores.take (scores.length / 2)
      let secondHalf := scores.drop (scores.length / 2)
      let weeklyChange := calculateMean secondHalf - calculateMean firstHalf
      { averageScore := average
        trend :=
          if 5 < weeklyChange then "improving"
          else if weeklyChange < -5 then "declining"
          else "stable"
        weeklyChange := weeklyChange
        consistencyScore := consistency
        lastSevenDays := lastSevenDays }
    else
      { averageScore := average
        trend := "stable"
        weeklyChange := 0
        consistencyScore := consistency
        lastSevenDays := lastSevenDays }

/-- Seven recovery records with scores `[70,70,70,70,70,90,90]`, creation
stamps already ascending (the spec's recovery-trend example). -/
def improvingBatch : List WhoopRecovery :=
  [⟨1, ⟨70, 50, 50⟩⟩, ⟨2, ⟨70, 50, 50⟩⟩, ⟨3, ⟨70, 50, 50⟩⟩,
   ⟨4, ⟨70, 50, 50⟩⟩, ⟨5, ⟨70, 50, 50⟩⟩, ⟨6, ⟨90, 50, 50⟩⟩,
   ⟨7, ⟨90, 50, 50⟩⟩]

/-- Two recovery records, scores 0 then 100, ascending creation stamps. -/
def twoRecordBatch : List WhoopRecovery :=
  [⟨1, ⟨0, 50, 50⟩⟩, ⟨2, ⟨100, 50, 50⟩⟩]

/-! ### Stress indicators (`analyzeStressIndicators`) -/

/-- The per-record elevated-HRV test: the current value exceeds 120% of the
baseline mean. -/
def hrvElevatedCond (baseline : List ℚ) (v : ℚ) : Bool :=
  decide (calculateMean baseline * 1.2 < v)

/-- The per-record high-resting-heart-rate test: the current value exceeds
the baseline mean by more than 10 bpm. -/
def rhrHighCond (baseline : List ℚ) (v : ℚ) : Bool :=
  decide (calculateMean baseline + 10 < v)

/-- The body of the `analyzeStressIndicators` record loop: walks the records
carrying the accumulated HRV and resting-heart-rate value lists (`hrvValues`
and `restingHRValues` before appending the current record), the two day
counters, and the current / best poor-recovery streaks.  The guard
`0 < hrvAcc.length` is Go's `len(hrvValues) > 1` test after the append.
Returns (elevatedHRVDays, highRestingHRDays, poorRecoveryStreak). -/
def stressLoop (hrvAcc rhrAcc : List ℚ) (elev high cur best : ℕ) :
    List WhoopRecovery → ℕ × ℕ × ℕ
  | [] => (elev, high, best)
  | r :: rest =>
    let hrv := r.score.hrvRmssd
    let rhr := r.score.restingHeartRate
    let sc := r.score.recoveryScore
    let elev' :=
      if 0 < hrvAcc.length ∧ hrvElevatedCond hrvAcc hrv then elev + 1 else elev
    let high' :=
      if 0 < rhrAcc.length ∧ rhrHighCond rhrAcc rhr then high + 1 else high
    let cur' := if sc < 33 then cur + 1 else 0
    let best' := if sc < 33 then max best (cur + 1) else best
    stressLoop (hrvAcc ++ [hrv]) (rhrAcc ++ [rhr]) elev' high' cur' best' rest

/-- `analyzeStressIndicators`: runs the record loop, then combines the
counters into the weighted 0–100 stress score and classifies the level.
The `sleepData` argument is accepted and ignored, as in the source. -/
def analyzeStressIndicators (recoveries : List WhoopRecovery)
    (sleepData : List WhoopSleep) : StressIndicators :=
  match recoveries with
  | [] => { stressLevel := "unknown" }
  | _ :: _ =>
    let res := stressLoop [] [] 0 0 0 0 recoveries
    let elevatedHRVDays := res.1
    let highRestingHRDays := res.2.1
    let poorRecoveryStreak := res.2.2
    let recoveryScores := recoveries.map (fun r => r.score.recoveryScore)
    let n : ℚ := (recoveries.length : ℚ)
    let avgRecovery := calculateMean recoveryScores
    let base := (elevatedHRVDays : ℚ) / n * 30 +
      (highRestingHRDays : ℚ) / n * 25 + (poorRecoveryStreak : ℚ) / 7 * 25
    let stressFactors :=
      if avgRecovery < 50 then base + (50 - avgRecovery) / 50 * 20 else base
    { elevatedHRVDays := elevatedHRVDays
      highRestingHRDays := highRestingHRDays
      poorRecoveryStreak := poorRecoveryStreak
      stressLevel :=
        if 70 < stressFactors then "critical"
        else if 50 < stressFactors then "high"
        else if 30 < stressFactors then "moderate"
        else "low"
      physiologicalStress := stressFactors }

/-! Specification-side reformulations for the stress score (used to state the
weighted-sum claim independently of the single-pass loop). -/

/-- Modelled from the spec's words: the number of positions whose value
passes the test against the running mean of all strictly prior values (the
first position never counts). -/
def specBaselineExceedCount (cond : List ℚ → ℚ → Bool) (l : List ℚ) : ℕ :=
  (List.range l.length).countP
    (fun i => decide (0 < i) && cond (l.take i) (l.getD i 0))

/-- Modelled from the spec's words: the length of the longest consecutive
run of values satisfying `p` (the maximum over all suffixes of the length of
the leading run). -/
def specLongestRun (p : ℚ → Bool) : List ℚ → ℕ
  | [] => 0
  | a :: t => max ((List.takeWhile p (a :: t)).length) (specLongestRun p t)

/-- Proof helper mirroring the counter updates of `stressLoop` for a single
baseline test. -/
def countCondLoop (cond : List ℚ → ℚ → Bool) : List ℚ → List ℚ → ℕ
  | _, [] => 0
  | acc, v :: t =>
    (if 0 < acc.length ∧ cond acc v then 1 else 0) +
      countCondLoop cond (acc ++ [v]) t

/-- Proof helper mirroring the streak updates of `stressLoop`. -/
def streakGo (p : ℚ → Bool) (cur best : ℕ) : List ℚ → ℕ
  | [] => best
  | v :: t =>
    if p v then streakGo p (cur + 1) (max best (cur + 1)) t
    else streakGo p 0 best t

/-- Proof helper: the best streak still reachable given a leading run has
already length `cur`. -/
def runExt (p : ℚ → Bool) (cur : ℕ) : List ℚ → ℕ
  | [] => 0
  | a :: t =>
    if p a then max (cur + 1) (runExt p (cur + 1) t) else runExt p 0 t

/-- Seven recovery records engineered so the weighted stress score is
exactly 75: HRV doubles daily (6 elevated days), resting heart rate jumps
twice (2 high days), all scores are below 33 (streak 7), and the mean score
is 50/7: 6/7·30 + 2/7·25 + 7/7·25 + (50 − 50/7)/50·20 = 75. -/
def stress75Batch : List WhoopRecovery :=
  [⟨1, ⟨20, 1, 60⟩⟩, ⟨2, ⟨20, 2, 60⟩⟩, ⟨3, ⟨10, 4, 60⟩⟩,
   ⟨4, ⟨0, 8, 60⟩⟩, ⟨5, ⟨0, 16, 60⟩⟩, ⟨6, ⟨0, 32, 80⟩⟩,
   ⟨7, ⟨0, 64, 100⟩⟩]

/-! ### Sleep patterns (`analyzeSleepPatterns`) -/

/-- Sleep duration in hours: in-bed milliseconds minus awake milliseconds. -/
def sleepDurationHours (s : WhoopSleep) : ℚ :=
  ((s.score.stageSummary.totalInBedTimeMilli -
      s.score.stageSummary.totalAwakeTimeMilli : ℤ) : ℚ) / (1000 * 60 * 60)

/-- `analyzeSleepPatterns`: per-record durations, efficiencies, debts and
disturbances, aggregated as means, plus the split-half quality trend. -/
def analyzeSleepPatterns (sleepData : List WhoopSleep) : SleepAnalysis :=
  match sleepData with
  | [] => { sleepQualityTrend := "no_data" }
  | _ :: _ =>
    let totalSleepHours := sleepData.map sleepDurationHours
    let efficiencies :=
      sleepData.map (fun s => s.score.sleepEfficiencyPercentage / 100)
    let debts := sleepData.map (fun s =>
      ((s.score.sleepNeeded.baselineMilli +
          s.score.sleepNeeded.needFromSleepDebtMilli : ℤ) : ℚ) /
        (1000 * 60 * 60) - sleepDurationHours s)
    let disturbances :=
      sleepData.map (fun s => s.score.stageSummary.disturbanceCount)
    let consistency0 := 1 - calculateStdDev totalSleepHours / 8
    let qualityTrend :=
      if 7 ≤ efficiencies.length then
        let firstHalf := efficiencies.take (efficiencies.length / 2)
        let secondHalf := efficiencies.drop (efficiencies.length / 2)
        if calculateMean firstHalf + 0.05 < calculateMean secondHalf then
          "improving"
        else if calculateMean secondHalf < calculateMean firstHalf - 0.05 then
          "declining"
        else "stable"
      else "stable"
    { averageHours := calculateMean totalSleepHours
      averageEfficiency := calculateMean efficiencies
      averageDebt := calculateMean debts
      consistencyScore := if consistency0 < 0 then 0 else consistency0
      disturbanceFrequency := ((calculateMeanInt disturbances : ℤ) : ℚ)
      optimalBedtime := "22:00"
      sleepQualityTrend := qualityTrend }

/-! ### Activity patterns (`analyzeActivityPatterns`) -/

/-- Go's `int(x)` conversion from `float64`: truncation toward zero. -/
def ratTruncToInt (q : ℚ) : ℤ :=
  Int.tdiv q.num (q.den : ℤ)

/-- `analyzeActivityPatterns`: weekly-workout extrapolation, strain
aggregation, gap consistency, overtraining risk and intensity balance. -/
def analyzeActivityPatterns (workouts : List WhoopWorkout)
    (cycles : List WhoopCycle) : ActivityPatterns :=
  match workouts, cycles with
  | [], [] => { overtrainingRisk := "unknown", intensityBalance := "unknown" }
  | _, _ =>
    let weeklyWorkouts :=
      match workouts with
      | [] => (workouts.length : ℤ)
      | w0 :: _ =>
        let daysDiff := ((workouts.getLast?.getD w0).start - w0.start) / 24
        if 0 < daysDiff then
          ratTruncToInt ((workouts.length : ℚ) * 7 / daysDiff)
        else (workouts.length : ℤ)
    let strainValues :=
      workouts.map (fun w => w.strain) ++ cycles.map (fun c => c.strain)
    let avgStrain :=
      if 0 < strainValues.length then calculateMean strainValues else 0
    let consistency :=
      if 1 < workouts.length then
        let gaps := List.zipWith (fun a b => (a.start - b.start) / 24)
          (workouts.drop 1) workouts
        let c0 := 1 - calculateStdDev gaps / 7
        if c0 < 0 then 0 else c0
      else 0
    let highIntensityDays := strainValues.countP (fun s => decide (15 < s))
    { weeklyWorkouts := weeklyWorkouts
      averageStrain := avgStrain
      workoutConsistency := consistency
      overtrainingRisk :=
        if 18 < avgStrain ∧ 6 < weeklyWorkouts then "high"
        else if 15 < avgStrain ∧ 5 < weeklyWorkouts then "moderate"
        else "low"
      activeRecoveryDays :=
        strainValues.countP (fun s => decide (0 < s ∧ s < 10))
      intensityBalance :=
        if 0 < strainValues.length then
          let ratio := (highIntensityDays : ℚ) / (strainValues.length : ℚ)
          if 0.5 < ratio then "high_intensity_focused"
          else if ratio < 0.2 then "low_intensity_focused"
          else "balanced"
        else "balanced" }

/-! ### Rule engines (`generateTherapyInsights`, `detectRedFlags`) -/

/-- `generateTherapyInsights`: the fixed advisory rule table, in source
order.  Free text dropped; category / severity / actionable retained. -/
def generateTherapyInsights (recovery : RecoveryTrend)
    (sleep : SleepAnalysis) (stress : StressIndicators)
    (activity : ActivityPatterns) : List TherapyInsight :=
  (if recovery.trend = "declining" then
    [⟨"recovery", "concern", true⟩] else []) ++
  (if recovery.consistencyScore < 0.6 then
    [⟨"recovery", "info", true⟩] else []) ++
  (if sleep.averageHours < 7 then
    [⟨"sleep", if sleep.averageHours < 6 then "alert" else "concern", true⟩]
  else []) ++
  (if sleep.averageEfficiency < 0.85 then
    [⟨"sleep", "concern", true⟩] else []) ++
  (if sleep.sleepQualityTrend = "declining" then
    [⟨"sleep", "concern", true⟩] else []) ++
  (if stress.stressLevel = "critical" ∨ stress.stressLevel = "high" then
    [⟨"stress", "alert", true⟩] else []) ++
  (if 3 ≤ stress.poorRecoveryStreak then
    [⟨"stress", "alert", true⟩] else []) ++
  (if activity.overtrainingRisk = "high" then
    [⟨"activity", "concern", true⟩] else []) ++
  (if activity.weeklyWorkouts = 0 then
    [⟨"activity", "info", true⟩] else [])

/-- `detectRedFlags`: the four red-flag rules, in source order.  `now` is
the `time.Now()` detection stamp.  The `workouts` argument is accepted and
never read, as in the source.  For 7 ≤ len(recoveries) < 10 the baseline
loop `for i := len-10; i < len-3 && i >= 0; i++` starts negative and never
runs, leaving the baseline empty. -/
def detectRedFlags (recoveries : List WhoopRecovery)
    (sleepData : List WhoopSleep) (workouts : List WhoopWorkout)
    (stress : StressIndicators) (now : ℤ) : List RedFlag :=
  (if stress.stressLevel = "critical" then
    [⟨"chronic_stress", "critical", now⟩] else []) ++
  (if 7 ≤ stress.poorRecoveryStreak then
    [⟨"extended_poor_recovery", "high", now⟩] else []) ++
  (match sleepData with
   | [] => []
   | _ :: _ =>
     let recentDays :=
       if sleepData.length < 3 then sleepData.length else 3
     let recentSleep :=
       (sleepData.drop (sleepData.length - recentDays)).map sleepDurationHours
     if calculateMean recentSleep < 5 then
       [⟨"severe_sleep_deprivation", "critical", now⟩]
     else []) ++
  (if 7 ≤ recoveries.length then
    let recentScores := (recoveries.drop (recoveries.length - 3)).map
      (fun r => r.score.recoveryScore)
    let baselineScores :=
      if 10 ≤ recoveries.length then
        ((recoveries.drop (recoveries.length - 10)).take 7).map
          (fun r => r.score.recoveryScore)
      else []
    if baselineScores ≠ [] ∧
        calculateMean recentScores < calculateMean baselineScores - 30 then
      [⟨"dramatic_recovery_decline", "high", now⟩]
    else []
  else [])

/-- `AnalyzeHealthSummary`: assembles the summary from the analyzers and
rule engines.  `sort.Slice` inside `analyzeRecoveryTrend` sorts the caller's
recovery slice in place, so the stress and red-flag passes observe the
sorted order. -/
def AnalyzeHealthSummary (recoveries : List WhoopRecovery)
    (sleepData : List WhoopSleep) (workouts : List WhoopWorkout)
    (cycles : List WhoopCycle) (startDate endDate : ℤ) (userID : ℤ)
    (now : ℤ) : HealthSummary :=
  let recoveryTrend := analyzeRecoveryTrend recoveries
  let sortedRecoveries := sortByCreatedAt recoveries
  let sleepAnalysis := analyzeSleepPatterns sleepData
  let stressIndicators := analyzeStressIndicators sortedRecoveries sleepData
  let activityPatterns := analyzeActivityPatterns workouts cycles
  { userID := userID
    dateRange := ⟨startDate, endDate⟩
    recoveryTrend := recoveryTrend
    sleepAnalysis := sleepAnalysis
    stressIndicators := stressIndicators
    activityPatterns := activityPatterns
    therapyInsights := generateTherapyInsights recoveryTrend sleepAnalysis
      stressIndicators activityPatterns
    redFlags := detectRedFlags sortedRecoveries sleepData workouts
      stressIndicators now }

/-! ### Fetch client (`whoop_client.go`): `makeRequest` over a scripted
transport -/

/-- The mutable credential state of `WhoopClient`. -/
structure ClientState where
  apiKey : String
  refreshToken : String
  clientID : String
  clientSecret : String
  deriving DecidableEq, Repr

/-- `canRefreshToken`: refresh material is present. -/
def canRefreshToken (w : ClientState) : Bool :=
  w.refreshToken != "" && w.clientID != "" && w.clientSecret != ""

/-- Outcome of one `doRequest` call: a body with an HTTP status, or a
transport failure. -/
inductive DoResult where
  | ok (body : String) (status : ℕ)
  | fail (msg : String)
  deriving DecidableEq, Repr

/-- A token-exchange response: new access token, and a replacement refresh
token ("" when the response omitted it). -/
structure RefreshResp where
  accessToken : String
  refreshToken : String
  deriving DecidableEq, Repr

/-- Outcome of one `refreshAccessToken` exchange. -/
inductive RefreshResult where
  | ok (resp : RefreshResp)
  | fail (msg : String)
  deriving DecidableEq, Repr

/-- Scripted transport: HTTP responses and token exchanges consumed in
order, plus the log of requested URLs. -/
structure Transport where
  responses : List DoResult
  refreshes : List RefreshResult
  log : List String
  deriving DecidableEq, Repr

/-- The errors `makeRequest` can surface. -/
inductive ReqError where
  | transport (msg : String)
  | refreshFailed (msg : String)
  | authFailedAfterRefresh
  | apiError (status : ℕ) (body : String)
  | outOfScript
  deriving DecidableEq, Repr

/-- `makeRequest`: one request for `url`; on a 401 with refresh material
present, one token exchange, credential replacement, and one retry of the
same URL; a second 401 is an authentication error; any other non-200 maps
to an API error.  Returns the result, the updated credential state, and the
remaining transport (its log extended by each issued request). -/
def makeRequest (st : ClientState) (url : String) (tr : Transport) :
    Except ReqError String × ClientState × Transport :=
  match tr.responses with
  | [] => (.error .outOfScript, st, tr)
  | r :: rest1 =>
    let tr1 : Transport := ⟨rest1, tr.refreshes, tr.log ++ [url]⟩
    match r with
    | .fail msg => (.error (.transport msg), st, tr1)
    | .ok body status =>
      if status = 401 ∧ canRefreshToken st then
        match tr1.refreshes with
        | [] => (.error .outOfScript, st, tr1)
        | fr :: rfs =>
          let tr2 : Transport := ⟨tr1.responses, rfs, tr1.log⟩
          match fr with
          | .fail msg => (.error (.refreshFailed msg), st, tr2)
          | .ok resp =>
            let st1 : ClientState :=
              { st with
                apiKey := resp.accessToken
                refreshToken :=
                  if resp.refreshToken != "" then resp.refreshToken
                  else st.refreshToken }
            match tr2.responses with
            | [] => (.error .outOfScript, st1, tr2)
            | r2 :: rest2 =>
              let tr3 : Transport := ⟨rest2, tr2.refreshes, tr2.log ++ [url]⟩
              match r2 with
              | .fail msg => (.error (.transport msg), st1, tr3)
              | .ok body2 status2 =>
                if status2 = 401 then
                  (.error .authFailedAfterRefresh, st1, tr3)
                else if status2 ≠ 200 then
                  (.error (.apiError status2 body2), st1, tr3)
                else (.ok body2, st1, tr3)
      else if status ≠ 200 then (.error (.apiError status body), st, tr1)
      else (.ok body, st, tr1)

/-! ### Pagination (`GetRecoveryData`) -/

/-- One page of the recovery endpoint: records plus the optional
continuation token. -/
structure RecoveryPage where
  data : List WhoopRecovery
  nextToken : Option String
  deriving DecidableEq, Repr

/-- Outcome of one page request (post-parse). -/
inductive PageResult where
  | ok (page : RecoveryPage)
  | fail (msg : String)
  deriving DecidableEq, Repr

/-- The `GetRecoveryData` pagination loop over scripted page results:
`tok` is the `nextToken` parameter of the next request ("" on the first
iteration).  Returns the accumulated records and the cursor carried by each
issued request; stops exactly when the returned cursor is absent or "". -/
def recoveryPagesLoop (tok : String) :
    List PageResult → Except String (List WhoopRecovery × List String)
  | [] => .error "no scripted response"
  | .fail msg :: _ => .error msg
  | .ok pg :: rest =>
    if pg.nextToken.getD "" = "" then .ok (pg.data, [tok])
    else
      match recoveryPagesLoop (pg.nextToken.getD "") rest with
      | .error e => .error e
      | .ok (recs, toks) => .ok (pg.data ++ recs, tok :: toks)

/-- `GetRecoveryData`: run the pagination loop with no initial cursor. -/
def GetRecoveryData (responses : List PageResult) :
    Except String (List WhoopRecovery × List String) :=
  recoveryPagesLoop "" responses

/-! ### Orchestrator (`executeHealthSummaryTool`) -/

/-- The goroutine result variable: assigned on success, left nil ([]) on
failure. -/
def fetchedOrDefault {α : Type} (res : Except String (List α)) : List α :=
  match res with
  | .ok d => d
  | .error _ => []

/-- The multiset of failures the four fetch goroutines push onto the error
channel, in the fixed order recovery, sleep, workout, cycle; the actual
channel order is any permutation of it. -/
def observedErrors (rRes : Except String (List WhoopRecovery))
    (sRes : Except String (List WhoopSleep))
    (wRes : Except String (List WhoopWorkout))
    (cRes : Except String (List WhoopCycle)) : List String :=
  (match rRes with | .error e => [e] | .ok _ => []) ++
  (match sRes with | .error e => [e] | .ok _ => []) ++
  (match wRes with | .error e => [e] | .ok _ => []) ++
  (match cRes with | .error e => [e] | .ok _ => [])

/-- `executeHealthSummaryTool` after the join barrier: `errs` is the error
channel's contents in detection order; the first observed failure aborts the
request, otherwise the summary is computed from the fetched batches. -/
def executeHealthSummaryAggregate (startDate endDate userID now : ℤ)
    (rRes : Except String (List WhoopRecovery))
    (sRes : Except String (List WhoopSleep))
    (wRes : Except String (List WhoopWorkout))
    (cRes : Except String (List WhoopCycle))
    (errs : List String) : Except String HealthSummary :=
  match errs with
  | e :: _ => .error e
  | [] => .ok (AnalyzeHealthSummary (fetchedOrDefault rRes)
      (fetchedOrDefault sRes) (fetchedOrDefault wRes) (fetchedOrDefault cRes)
      startDate endDate userID now)

/-! ### Date-range parsing (`parseDateRange` in mcp_protocol.go) -/

/-- A parsed `YYYY-MM-DD` calendar date. -/
structure DateTriple where
  year : ℤ
  month : ℤ
  day : ℤ
  deriving DecidableEq, Repr

/-- Gregorian leap-year rule. -/
def isLeapYear (y : ℤ) : Bool :=
  (y % 4 == 0 && y % 100 != 0) || (y % 400 == 0)

/-- Leap years in `[1, y)`. -/
def leapsBefore (y : ℤ) : ℤ :=
  Int.fdiv (y - 1) 4 - Int.fdiv (y - 1) 100 + Int.fdiv (y - 1) 400

/-- Days from 1970-01-01 to the start of year `y`. -/
def yearStartDays (y : ℤ) : ℤ :=
  365 * (y - 1970) + (leapsBefore y - leapsBefore 1970)

/-- Cumulative days before month `m` in a non-leap year. -/
def daysBeforeMonth (m : ℤ) : ℤ :=
  if m = 1 then 0 else if m = 2 then 31 else if m = 3 then 59
  else if m = 4 then 90 else if m = 5 then 120 else if m = 6 then 151
  else if m = 7 then 181 else if m = 8 then 212 else if m = 9 then 243
  else if m = 10 then 273 else if m = 11 then 304 else 334

/-- Epoch day number of `time.Date(y, m, d, 0,0,0,0, UTC)`: days to the
start of the month plus `d − 1`, as in the Go runtime's date-to-absolute
computation (which therefore normalizes day overflow linearly). -/
def dateDays (y m d : ℤ) : ℤ :=
  yearStartDays y + daysBeforeMonth m +
    (if 2 < m ∧ isLeapYear y then 1 else 0) + (d - 1)

/-- Epoch seconds of midnight on the given calendar date. -/
def dateSec (t : DateTriple) : ℤ :=
  dateDays t.year t.month t.day * 86400

/-- `parseDateRange` on two successfully parsed dates: both parse to
midnight; when `Format("2006-01-02")` agrees — i.e. the two instants lie on
the same epoch day — the end becomes `AddDate(0,0,1)` minus one second. -/
def parseDateRange (s e : DateTriple) : ℤ × ℤ :=
  if dateDays s.year s.month s.day = dateDays e.year e.month e.day then
    (dateSec s, dateDays e.year e.month (e.day + 1) * 86400 - 1)
  else (dateSec s, dateSec e)

/-! ### Theorems -/

/-- C10: a non-empty recovery batch with fewer than 7 records yields trend
"stable" and weekly change 0: the midpoint split needs at least 7 scores. -/
theorem analyzeRecoveryTrend_short_batch_stable (rs : List WhoopRecovery)
    (hne : rs ≠ []) (hlt : rs.length < 7) :
    (analyzeRecoveryTrend rs).trend = "stable" ∧
    (analyzeRecoveryTrend rs).weeklyChange = 0 := by
  obtain ⟨r, rest, rfl⟩ : ∃ r rest, rs = r :: rest := by
    cases rs with
    | nil => exact absurd rfl hne
    | cons a t => exact ⟨a, t, rfl⟩
  have hlen :
      ((sortByCreatedAt (r :: rest)).map
        (fun x => x.score.recoveryScore)).length = (r :: rest).length := by
    simp only [sortByCreatedAt, List.length_map, List.length_insertionSort]
  simp only [analyzeRecoveryTrend]
  rw [if_neg (by rw [hlen]; omega)]
  exact ⟨rfl, rfl⟩

unseal Rat.mul Rat.add Rat.sub Rat.inv in
/-- C10 witness: a concrete 2-record batch is classified "stable" with zero
weekly change. -/
theorem analyzeRecoveryTrend_short_batch_stable_witness :
    (analyzeRecoveryTrend twoRecordBatch).trend = "stable" ∧
    (analyzeRecoveryTrend twoRecordBatch).weeklyChange = 0 :=
  analyzeRecoveryTrend_short_batch_stable twoRecordBatch (by decide) (by decide)

/-- C6 (amended): for a recovery batch with at least 7 records, the trend is
the midpoint-split classification (improving / declining by more than 5
points, else stable), the weekly change is the difference of the half means
of the creation-time-sorted scores, and the last up to 7 sorted scores are
retained verbatim; the empty batch yields the "no_data" sentinel. -/
theorem analyzeRecoveryTrend_midpoint_split (rs : List WhoopRecovery)
    (h7 : 7 ≤ rs.length) :
    ((analyzeRecoveryTrend rs).weeklyChange =
      calculateMean
          (((sortByCreatedAt rs).map (fun r => r.score.recoveryScore)).drop
            (((sortByCreatedAt rs).map
              (fun r => r.score.recoveryScore)).length / 2)) -
        calculateMean
          (((sortByCreatedAt rs).map (fun r => r.score.recoveryScore)).take
            (((sortByCreatedAt rs).map
              (fun r => r.score.recoveryScore)).length / 2)) ∧
    (analyzeRecoveryTrend rs).trend =
      (if 5 < (analyzeRecoveryTrend rs).weeklyChange then "improving"
       else if (analyzeRecoveryTrend rs).weeklyChange < -5 then "declining"
       else "stable") ∧
    (analyzeRecoveryTrend rs).lastSevenDays =
      ((sortByCreatedAt rs).map (fun r => r.score.recoveryScore)).drop
        (((sortByCreatedAt rs).map
          (fun r => r.score.recoveryScore)).length - 7)) ∧
    analyzeRecoveryTrend [] = { trend := "no_data" } := by
  obtain ⟨r, rest, rfl⟩ : ∃ r rest, rs = r :: rest := by
    cases rs with
    | nil => simp at h7
    | cons a t => exact ⟨a, t, rfl⟩
  have hlen :
      ((sortByCreatedAt (r :: rest)).map
        (fun x => x.score.recoveryScore)).length = (r :: rest).length := by
    simp only [sortByCreatedAt, List.length_map, List.length_insertionSort]
  refine ⟨?_, rfl⟩
  simp only [analyzeRecoveryTrend]
  rw [if_pos (by rw [hlen]; omega)]
  exact ⟨rfl, rfl, rfl⟩

unseal Rat.mul Rat.add Rat.sub Rat.inv in
/-- C6 witness: on the spec's example batch (scores `[70,70,70,70,70,90,90]`)
the midpoint-split classification yields "improving". -/
theorem analyzeRecoveryTrend_midpoint_split_witness :
    (analyzeRecoveryTrend improvingBatch).trend = "improving" :=
  ((analyzeRecoveryTrend_midpoint_split improvingBatch
    (by decide)).1.2.1).trans (by decide)

unseal Rat.mul Rat.add Rat.sub Rat.inv in
/-- C6 counterexample: a two-record batch with sorted scores `[0, 100]` has a
second-half mean exceeding the first-half mean by more than 5 points, yet
`analyzeRecoveryTrend` classifies it "stable", not "improving": the midpoint
comparison is skipped below 7 records. -/
theorem analyzeRecoveryTrend_midpoint_counterexample :
    (sortByCreatedAt twoRecordBatch).map (fun r => r.score.recoveryScore) =
      [0, 100] ∧
    5 < calculateMean ([(0 : ℚ), 100].drop 1) -
          calculateMean ([(0 : ℚ), 100].take 1) ∧
    (analyzeRecoveryTrend twoRecordBatch).trend = "stable" ∧
    (analyzeRecoveryTrend twoRecordBatch).trend ≠ "improving" := by
  decide

unseal Rat.mul Rat.add Rat.sub Rat.inv Rat.ofScientific in
/-- C1 counterexample: a concrete batch whose weighted stress score is
exactly 75 is classified "critical", not "low". -/
theorem stressScore75_classified_critical :
    (analyzeStressIndicators stress75Batch []).physiologicalStress = 75 ∧
    (analyzeStressIndicators stress75Batch []).stressLevel = "critical" ∧
    ("critical" : String) ≠ "low" := by
  decide

/-- C1 (amended): the stress level is derived from the 0–100 stress score by
the boundaries of the source: strictly above 70 is "critical" (so a score of
75 or 85 is "critical"), strictly above 50 is "high" (score 55), strictly
above 30 is "moderate" (score 35), and otherwise "low". -/
theorem stressLevel_classification (rs : List WhoopRecovery)
    (hne : rs ≠ []) (sl : List WhoopSleep) :
    (analyzeStressIndicators rs sl).stressLevel =
      (if 70 < (analyzeStressIndicators rs sl).physiologicalStress then
        "critical"
      else if 50 < (analyzeStressIndicators rs sl).physiologicalStress then
        "high"
      else if 30 < (analyzeStressIndicators rs sl).physiologicalStress then
        "moderate"
      else "low") := by
  obtain ⟨r, rest, rfl⟩ : ∃ r rest, rs = r :: rest := by
    cases rs with
    | nil => exact absurd rfl hne
    | cons a t => exact ⟨a, t, rfl⟩
  rfl

unseal Rat.mul Rat.add Rat.sub Rat.inv Rat.ofScientific in
/-- C1 witness: the classification theorem applied to the concrete
score-75 batch yields "critical". -/
theorem stressLevel_classification_witness :
    (analyzeStressIndicators stress75Batch []).stressLevel = "critical" :=
  (stressLevel_classification stress75Batch (by decide) []).trans (by decide)

/-- The combined stress loop splits into the two baseline-counter loops and
the streak loop. -/
theorem stressLoop_eq (l : List WhoopRecovery) :
    ∀ (ha ra : List ℚ) (e h c b : ℕ),
    stressLoop ha ra e h c b l =
      (e + countCondLoop hrvElevatedCond ha (l.map (fun r => r.score.hrvRmssd)),
       h + countCondLoop rhrHighCond ra
        (l.map (fun r => r.score.restingHeartRate)),
       streakGo (fun v => decide (v < 33)) c b
        (l.map (fun r => r.score.recoveryScore))) := by
  induction l with
  | nil => intro ha ra e h c b; simp [stressLoop, countCondLoop, streakGo]
  | cons r rest ih =>
    intro ha ra e h c b
    simp only [stressLoop, List.map_cons, countCondLoop, streakGo, ih]
    by_cases hsc : r.score.recoveryScore < 33 <;>
      by_cases h1 : 0 < ha.length ∧ hrvElevatedCond ha r.score.hrvRmssd <;>
      by_cases h2 : 0 < ra.length ∧ rhrHighCond ra r.score.restingHeartRate <;>
      simp [hsc, h1, h2] <;> omega

/-- The baseline-counter loop counts the positions whose value passes the
test against the accumulated prefix. -/
theorem countCondLoop_eq (cond : List ℚ → ℚ → Bool) (l : List ℚ) :
    ∀ acc : List ℚ,
    countCondLoop cond acc l =
      (List.range l.length).countP
        (fun j => decide (0 < (acc ++ l.take j).length) &&
          cond (acc ++ l.take j) (l.getD j 0)) := by
  induction l with
  | nil => simp [countCondLoop]
  | cons v t ih =>
    intro acc
    rw [countCondLoop, ih (acc ++ [v]), List.length_cons,
      List.range_succ_eq_map, List.countP_cons, List.countP_map]
    simp only [Function.comp_def, Nat.succ_eq_add_one, List.take_succ_cons,
      List.getD_cons_succ, List.getD_cons_zero, List.take_zero,
      List.append_nil, List.append_assoc, List.singleton_append,
      Bool.and_eq_true, decide_eq_true_eq]
    by_cases h0 : 0 < acc.length ∧ cond acc v = true <;> simp [h0] <;> omega

/-- Starting from the empty accumulator, the baseline-counter loop computes
the specification count over strictly prior prefixes. -/
theorem countCondLoop_nil_eq_spec (cond : List ℚ → ℚ → Bool) (l : List ℚ) :
    countCondLoop cond [] l = specBaselineExceedCount cond l := by
  rw [countCondLoop_eq cond l [], specBaselineExceedCount]
  apply List.countP_congr
  intro j hj
  rw [List.mem_range] at hj
  have hlen : (l.take j).length = j := by
    rw [List.length_take]; omega
  simp [hlen]

/-- The streak loop is the running best over the reachable-run helper. -/
theorem streakGo_eq_max (p : ℚ → Bool) (l : List ℚ) :
    ∀ cur best, streakGo p cur best l = max best (runExt p cur l) := by
  induction l with
  | nil => intro cur best; simp [streakGo, runExt]
  | cons v t ih =>
    intro cur best
    by_cases hp : p v <;> simp [streakGo, runExt, hp, ih] <;> omega

/-- The leading run is never longer than the longest run. -/
theorem firstRun_le_specLongestRun (p : ℚ → Bool) (l : List ℚ) :
    (l.takeWhile p).length ≤ specLongestRun p l := by
  cases l with
  | nil => simp [specLongestRun]
  | cons a t => simp only [specLongestRun]; exact le_max_left _ _

/-- Characterization of the reachable-run helper by the leading run and the
longest run. -/
theorem runExt_eq (p : ℚ → Bool) (l : List ℚ) :
    ∀ cur, runExt p cur l =
      max (if l ≠ [] ∧ p (l.headD 0) then cur + (l.takeWhile p).length else 0)
        (specLongestRun p l) := by
  induction l with
  | nil => intro cur; simp [runExt, specLongestRun]
  | cons a t ih =>
    intro cur
    by_cases hp : p a
    · rw [runExt, if_pos hp, ih (cur + 1)]
      cases t with
      | nil => simp [specLongestRun, hp, List.takeWhile_cons] <;> omega
      | cons b t' =>
        by_cases hpb : p b <;>
          simp [specLongestRun, hp, hpb, List.takeWhile_cons] <;>
          (first | (split_ifs <;> omega) | omega)
    · rw [runExt, if_neg hp, ih 0]
      have hle := firstRun_le_specLongestRun p t
      by_cases ht : t ≠ [] ∧ p (t.headD 0) <;>
        simp [specLongestRun, hp, ht, List.takeWhile_cons] <;>
        (first | (split_ifs <;> omega) | omega)

/-- The streak loop from zero state computes the longest run. -/
theorem streakGo_zero_eq_spec (p : ℚ → Bool) (l : List ℚ) :
    streakGo p 0 0 l = specLongestRun p l := by
  rw [streakGo_eq_max, runExt_eq]
  have hle := firstRun_le_specLongestRun p l
  by_cases h : l ≠ [] ∧ p (l.headD 0) <;> simp [h] <;>
    (first | (split_ifs <;> omega) | omega)

/-- C7: for a non-empty recovery batch the weighted stress score is
30·(elevated-HRV fraction) + 25·(high-RHR fraction) + 25·(longest poor
streak / 7, uncapped) + 20·((50 − mean)/50 when the mean recovery score is
below 50, else 0), where the two fractions count records exceeding the
running mean of strictly prior values (the first record never counts). -/
theorem analyzeStressIndicators_weighted_score (rs : List WhoopRecovery)
    (hne : rs ≠ []) (sl : List WhoopSleep) :
    (analyzeStressIndicators rs sl).physiologicalStress =
      30 * ((specBaselineExceedCount hrvElevatedCond
          (rs.map (fun r => r.score.hrvRmssd)) : ℚ) / (rs.length : ℚ)) +
      25 * ((specBaselineExceedCount rhrHighCond
          (rs.map (fun r => r.score.restingHeartRate)) : ℚ) /
            (rs.length : ℚ)) +
      25 * ((specLongestRun (fun v => decide (v < 33))
          (rs.map (fun r => r.score.recoveryScore)) : ℚ) / 7) +
      (if calculateMean (rs.map (fun r => r.score.recoveryScore)) < 50 then
        20 * ((50 - calculateMean
          (rs.map (fun r => r.score.recoveryScore))) / 50)
      else 0) := by
  obtain ⟨r, rest, rfl⟩ : ∃ r rest, rs = r :: rest := by
    cases rs with
    | nil => exact absurd rfl hne
    | cons a t => exact ⟨a, t, rfl⟩
  simp only [analyzeStressIndicators, stressLoop_eq, Nat.zero_add,
    countCondLoop_nil_eq_spec, streakGo_zero_eq_spec]
  split_ifs <;> ring

unseal Rat.mul Rat.add Rat.sub Rat.inv Rat.ofScientific in
/-- C7 witness: on the concrete engineered batch the weighted formula
evaluates to exactly 75. -/
theorem analyzeStressIndicators_weighted_score_witness :
    (analyzeStressIndicators stress75Batch []).physiologicalStress = 75 :=
  (analyzeStressIndicators_weighted_score stress75Batch
    (by decide) []).trans (by decide)

/-- C5: when both valid dates denote the same calendar day, the parsed end
instant is exactly 23:59:59 of that day and the start stays at midnight;
when they denote distinct days, both instants are returned unchanged. -/
theorem parseDateRange_same_day_widens (s e : DateTriple) :
    (dateDays s.year s.month s.day = dateDays e.year e.month e.day →
      parseDateRange s e =
        (dateSec s, dateSec e + (23 * 3600 + 59 * 60 + 59))) ∧
    (dateDays s.year s.month s.day ≠ dateDays e.year e.month e.day →
      parseDateRange s e = (dateSec s, dateSec e)) := by
  have hnext : dateDays e.year e.month (e.day + 1) =
      dateDays e.year e.month e.day + 1 := by
    unfold dateDays; ring
  constructor
  · intro h
    simp only [parseDateRange, if_pos h, hnext, dateSec]
    refine Prod.ext rfl ?_
    ring
  · intro h
    rw [parseDateRange, if_neg h]

/-- C5 witness: for 2024-05-17 twice, the end instant is 23:59:59 of that
day; for 2024-05-17 / 2024-05-18, both instants are unchanged. -/
theorem parseDateRange_same_day_widens_witness :
    parseDateRange ⟨2024, 5, 17⟩ ⟨2024, 5, 17⟩ =
      (dateSec ⟨2024, 5, 17⟩, dateSec ⟨2024, 5, 17⟩ + 86399) ∧
    parseDateRange ⟨2024, 5, 17⟩ ⟨2024, 5, 18⟩ =
      (dateSec ⟨2024, 5, 17⟩, dateSec ⟨2024, 5, 18⟩) :=
  ⟨((parseDateRange_same_day_widens ⟨2024, 5, 17⟩ ⟨2024, 5, 17⟩).1
      (by decide)).trans (by decide),
   (parseDateRange_same_day_widens ⟨2024, 5, 17⟩ ⟨2024, 5, 18⟩).2 (by decide)⟩

/-- C2: with refresh material present, a 401 followed by a 200 performs
exactly one token exchange, replaces the in-memory credential, reissues the
same URL exactly once, and returns the retried body; a 401 followed by a
second 401 fails with the post-refresh authentication error.  In both runs
exactly two responses and one exchange are consumed (the supplied tails are
untouched) and the request log shows the same URL twice. -/
theorem makeRequest_single_refresh (st : ClientState)
    (href : canRefreshToken st = true) (url b1 b2 : String)
    (resp : RefreshResp) (extraResp : List DoResult)
    (extraRef : List RefreshResult) :
    makeRequest st url
        ⟨.ok b1 401 :: .ok b2 200 :: extraResp, .ok resp :: extraRef, []⟩ =
      (.ok b2,
       { st with
          apiKey := resp.accessToken
          refreshToken :=
            if resp.refreshToken != "" then resp.refreshToken
            else st.refreshToken },
       ⟨extraResp, extraRef, [url, url]⟩) ∧
    makeRequest st url
        ⟨.ok b1 401 :: .ok b2 401 :: extraResp, .ok resp :: extraRef, []⟩ =
      (.error .authFailedAfterRefresh,
       { st with
          apiKey := resp.accessToken
          refreshToken :=
            if resp.refreshToken != "" then resp.refreshToken
            else st.refreshToken },
       ⟨extraResp, extraRef, [url, url]⟩) := by
  constructor <;> simp [makeRequest, href]

/-- C2 witness: the two runs on a concrete credential state and transport
script. -/
theorem makeRequest_single_refresh_witness :
    makeRequest ⟨"old", "refresh", "id", "secret"⟩ "/v2/recovery"
        ⟨[.ok "x" 401, .ok "page" 200], [.ok ⟨"new", "refresh2"⟩], []⟩ =
      (.ok "page", ⟨"new", "refresh2", "id", "secret"⟩,
       ⟨[], [], ["/v2/recovery", "/v2/recovery"]⟩) ∧
    makeRequest ⟨"old", "refresh", "id", "secret"⟩ "/v2/recovery"
        ⟨[.ok "x" 401, .ok "y" 401], [.ok ⟨"new", "refresh2"⟩], []⟩ =
      (.error .authFailedAfterRefresh, ⟨"new", "refresh2", "id", "secret"⟩,
       ⟨[], [], ["/v2/recovery", "/v2/recovery"]⟩) := by
  have h := makeRequest_single_refresh ⟨"old", "refresh", "id", "secret"⟩
    (by decide) "/v2/recovery" "x" "page" ⟨"new", "refresh2"⟩ [] []
  have h2 := makeRequest_single_refresh ⟨"old", "refresh", "id", "secret"⟩
    (by decide) "/v2/recovery" "x" "y" ⟨"new", "refresh2"⟩ [] []
  exact ⟨h.1.trans rfl, h2.2.trans rfl⟩

/-- C3: three successful pages whose responses carry non-empty cursors
`c2`, `c3` and then an absent-or-empty cursor produce exactly three
requests — carrying cursors "", `c2`, `c3` — and the concatenation
`p1 ++ p2 ++ p3` in page order; any further scripted responses are never
requested. -/
theorem getRecoveryData_pagination (p1 p2 p3 : List WhoopRecovery)
    (c2 c3 : String) (h2 : c2 ≠ "") (h3 : c3 ≠ "")
    (t3 : Option String) (ht3 : t3 = none ∨ t3 = some "")
    (extra : List PageResult) :
    GetRecoveryData
        ([.ok ⟨p1, some c2⟩, .ok ⟨p2, some c3⟩, .ok ⟨p3, t3⟩] ++ extra) =
      .ok (p1 ++ p2 ++ p3, ["", c2, c3]) := by
  rcases ht3 with rfl | rfl <;>
    simp [GetRecoveryData, recoveryPagesLoop, h2, h3]

/-- C3 witness: a concrete three-page run. -/
theorem getRecoveryData_pagination_witness :
    GetRecoveryData
        [.ok ⟨[⟨1, ⟨10, 20, 30⟩⟩], some "a"⟩,
         .ok ⟨[⟨2, ⟨40, 50, 60⟩⟩], some "b"⟩,
         .ok ⟨[⟨3, ⟨70, 80, 90⟩⟩], none⟩] =
      .ok ([⟨1, ⟨10, 20, 30⟩⟩, ⟨2, ⟨40, 50, 60⟩⟩, ⟨3, ⟨70, 80, 90⟩⟩],
        ["", "a", "b"]) := by
  have h := getRecoveryData_pagination [⟨1, ⟨10, 20, 30⟩⟩]
    [⟨2, ⟨40, 50, 60⟩⟩] [⟨3, ⟨70, 80, 90⟩⟩] "a" "b"
    (by decide) (by decide) none (Or.inl rfl) []
  exact (by simpa using h)

/-- C4: whatever order the error channel observed, if the workout fetch
failed while the other three succeeded the aggregated request fails with
that (first observed) failure and no summary is produced; if all four
succeeded — even with empty batches — the summary over the four batches is
returned. -/
theorem healthSummary_join_semantics (sd ed uid now : ℤ)
    (rD : List WhoopRecovery) (sD : List WhoopSleep)
    (cD : List WhoopCycle) (wErr : String) :
    (∀ errs : List String,
      errs.Perm (observedErrors (.ok rD) (.ok sD) (.error wErr) (.ok cD)) →
      executeHealthSummaryAggregate sd ed uid now
          (.ok rD) (.ok sD) (.error wErr) (.ok cD) errs = .error wErr) ∧
    (∀ (wD : List WhoopWorkout) (errs : List String),
      errs.Perm (observedErrors (.ok rD) (.ok sD) (.ok wD) (.ok cD)) →
      executeHealthSummaryAggregate sd ed uid now
          (.ok rD) (.ok sD) (.ok wD) (.ok cD) errs =
        .ok (AnalyzeHealthSummary rD sD wD cD sd ed uid now)) := by
  constructor
  · intro errs hperm
    have : errs = [wErr] := by
      simpa [observedErrors, List.perm_singleton] using hperm
    subst this
    rfl
  · intro wD errs hperm
    have : errs = [] := by
      simpa [observedErrors] using hperm.eq_nil
    subst this
    rfl

/-- C4 witness: the two scenarios at concrete (empty-batch) inputs: the lone
workout failure aborts the request, and four empty successes still produce a
summary. -/
theorem healthSummary_join_semantics_witness :
    executeHealthSummaryAggregate 0 86399 7 5 (.ok []) (.ok [])
        (.error "failed to get workout data") (.ok [])
        ["failed to get workout data"] =
      .error "failed to get workout data" ∧
    executeHealthSummaryAggregate 0 86399 7 5 (.ok []) (.ok []) (.ok [])
        (.ok []) [] =
      .ok (AnalyzeHealthSummary [] [] [] [] 0 86399 7 5) :=
  ⟨(healthSummary_join_semantics 0 86399 7 5 [] [] []
      "failed to get workout data").1 _ (by rfl),
   (healthSummary_join_semantics 0 86399 7 5 [] [] []
      "failed to get workout data").2 [] [] (by rfl)⟩

/-- C9: the statistics engines degrade to their sentinels on empty input and
every guarded mean / standard deviation yields 0 on empty or single-element
lists instead of dividing by zero (the embedded engines are total functions,
so no input can make them error). -/
theorem analyzers_degrade_on_empty :
    (analyzeRecoveryTrend []).trend = "no_data" ∧
    (analyzeSleepPatterns []).sleepQualityTrend = "no_data" ∧
    (∀ sl : List WhoopSleep,
      (analyzeStressIndicators [] sl).stressLevel = "unknown") ∧
    (analyzeActivityPatterns [] []).intensityBalance = "unknown" ∧
    (analyzeActivityPatterns [] []).overtrainingRisk = "unknown" ∧
    calculateMean [] = 0 ∧
    calculateMeanInt [] = 0 ∧
    (∀ l : List ℚ, l.length ≤ 1 → calculateStdDev l = 0) := by
  refine ⟨rfl, rfl, fun _ => rfl, rfl, rfl, rfl, rfl, ?_⟩
  intro l h
  rw [calculateStdDev, if_pos h]

unseal Rat.mul Rat.add Rat.sub Rat.inv in
/-- C9 witness: the guard evaluated at a one-element list, and the stress
sentinel at the empty batch. -/
theorem analyzers_degrade_on_empty_witness :
    calculateStdDev [(3 : ℚ)] = 0 ∧
    (analyzeStressIndicators [] []).stressLevel = "unknown" :=
  ⟨analyzers_degrade_on_empty.2.2.2.2.2.2.2 [3] (by decide),
   analyzers_degrade_on_empty.2.2.1 []⟩

/-- C8: for a non-empty sleep batch, the "severe_sleep_deprivation" red flag
(severity "critical") is emitted if and only if the mean duration of the
most recent min(3, n) nights is strictly below 5 hours. -/
theorem detectRedFlags_sleep_deprivation (recoveries : List WhoopRecovery)
    (workouts : List WhoopWorkout) (stress : StressIndicators) (now : ℤ)
    (sleeps : List WhoopSleep) (hne : sleeps ≠ []) :
    (∃ f ∈ detectRedFlags recoveries sleeps workouts stress now,
        f.rtype = "severe_sleep_deprivation" ∧ f.severity = "critical") ↔
      calculateMean ((sleeps.drop (sleeps.length - min 3 sleeps.length)).map
        sleepDurationHours) < 5 := by
  obtain ⟨s0, rest, rfl⟩ : ∃ s0 rest, sleeps = s0 :: rest := by
    cases sleeps with
    | nil => exact absurd rfl hne
    | cons a t => exact ⟨a, t, rfl⟩
  have hmin : (if (s0 :: rest).length < 3 then (s0 :: rest).length else 3) =
      min 3 (s0 :: rest).length := by
    split_ifs <;> omega
  simp only [detectRedFlags, hmin, List.mem_append]
  constructor
  · rintro ⟨f, hf, htype, hsev⟩
    rcases hf with ((h | h) | h) | h
    · revert h; split_ifs <;> intro h <;> simp_all
    · revert h; split_ifs <;> intro h <;> simp_all
    · revert h; split_ifs with hlt
      · intro h
        simp only [List.mem_singleton] at h
        subst h
        exact hlt
      · simp
    · revert h; split_ifs <;> intro h <;> simp_all
  · intro hlt
    refine ⟨⟨"severe_sleep_deprivation", "critical", now⟩, ?_, rfl, rfl⟩
    refine Or.inl (Or.inr ?_)
    rw [if_pos hlt]
    exact List.mem_singleton_self _

unseal Rat.mul Rat.add Rat.sub Rat.inv in
/-- C8 witness: a single 4-hour night fires the flag, and a single
exactly-5-hour night does not. -/
theorem detectRedFlags_sleep_deprivation_witness :
    (∃ f ∈ detectRedFlags [] [⟨⟨⟨14400000, 0, 0⟩, 85, ⟨28800000, 0⟩⟩⟩] []
        ⟨0, 0, 0, "low", 0⟩ 99,
      f.rtype = "severe_sleep_deprivation" ∧ f.severity = "critical") ∧
    ¬ (∃ f ∈ detectRedFlags [] [⟨⟨⟨18000000, 0, 0⟩, 85, ⟨28800000, 0⟩⟩⟩] []
        ⟨0, 0, 0, "low", 0⟩ 99,
      f.rtype = "severe_sleep_deprivation" ∧ f.severity = "critical") :=
  ⟨(detectRedFlags_sleep_deprivation [] [] ⟨0, 0, 0, "low", 0⟩ 99
      [⟨⟨⟨14400000, 0, 0⟩, 85, ⟨28800000, 0⟩⟩⟩] (by decide)).mpr (by decide),
   fun hex =>
    absurd ((detectRedFlags_sleep_deprivation [] [] ⟨0, 0, 0, "low", 0⟩ 99
      [⟨⟨⟨18000000, 0, 0⟩, 85, ⟨28800000, 0⟩⟩⟩] (by decide)).mp hex)
      (by decide)⟩
